import Mathlib

/-!
Shallow embedding of the GLOBAL_FLOOD keys-lookup resolution engine
(`sandpit/keys_server_global.py`, class `GLOBAL_FLOODKeysLookup`).

Pandas dataframes are embedded as lists of records, vectorized `.loc`
conditional assignments as per-row conditional updates (the masks are
row-wise), and `merge` as a left/inner join over lists.  Missing values
(`NaN`) are embedded as `Option`; floats as `ℚ`.
-/

namespace GlobalFlood

/-- Peril id of river (fluvial) flood.  `constants.FLUVIAL_ID` in the source is
defined outside `src/`; its value is the OED id of `oasislmf`'s
`PERILS["river flood"]` (see `useful_scripts/event_footprint.py`, which copies
the same constants), consistent with the `"ORF;OSF;WSS"` default for
`locperilscovered` in `keys_server_global.py`. -/
def FLUVIAL_ID : String := "ORF"

/-- Peril id of flash (pluvial) flood, `PERILS["flash flood"]`. -/
def PLUVIAL_ID : String := "OSF"

/-- Peril id of storm surge (coastal flood), `PERILS["storm surge"]`. -/
def COASTAL_ID : String := "WSS"

/-- The semicolon-joined group of all three perils,
`FLUVIAL_ID + ";" + PLUVIAL_ID + ";" + COASTAL_ID`. -/
def allPerilsStr : String := FLUVIAL_ID ++ ";" ++ PLUVIAL_ID ++ ";" ++ COASTAL_ID

/-- OED peril-group code `PERIL_GROUPS["all"]["id"]` from `oasislmf`. -/
def ALL_GROUP : String := "AA1"

/-- OED peril-group code `PERIL_GROUPS["flood w/o storm surge"]["id"]`. -/
def FLOOD_WO_SURGE_GROUP : String := "OO1"

/-- OED peril-group code `PERIL_GROUPS["windstorm w/ storm surge"]["id"]`. -/
def WINDSTORM_W_SURGE_GROUP : String := "WW1"

/-- `SUPPORTED_COVERAGE_TYPES["buildings"]["id"]` from `oasislmf`. -/
def COV_BUILDINGS : Int := 1

/-- `SUPPORTED_COVERAGE_TYPES["contents"]["id"]` from `oasislmf`. -/
def COV_CONTENTS : Int := 3

/-- `SUPPORTED_COVERAGE_TYPES["bi"]["id"]` from `oasislmf`. -/
def COV_BI : Int := 4

/-- `SUPPORTED_COVERAGE_TYPES_BY_ID` of `keys_server_global.py`: coverage id
to coverage name. -/
def coverageName (c : Int) : String :=
  if c = 1 then "buildings"
  else if c = 2 then "other"
  else if c = 3 then "contents"
  else if c = 4 then "bi"
  else ""

/-- `pandas.Series.str.contains` with a plain (regex-metacharacter-free)
needle: substring containment. -/
def containsSubstr (needle hay : String) : Bool :=
  (List.range (hay.data.length + 1)).any
    (fun i => needle.data.isPrefixOf (hay.data.drop i))

/-! ### Computable rational arithmetic

The standard `Rat` multiplication is `@[irreducible]`, so the embedding
uses `mkRat`-based products, proved below (`qmulZ_eq`, `qmulc_eq`) to agree
with the field operations of `ℚ`; likewise the non-integer decimal
constants of the source are written as explicit fractions. -/

/-- `x * m` for an integer scale factor `m`, computably. -/
def qmulZ (x : ℚ) (m : Int) : ℚ := mkRat (x.num * m) x.den

/-- `x * c` for a rational constant `c`, computably. -/
def qmulc (x c : ℚ) : ℚ := mkRat (x.num * c.num) (x.den * c.den)

/-- The feet-to-metres factor 0.3048. -/
def c3048 : ℚ := mkRat 3048 10000

/-- 0.6, the mobile-home / nonresidential first-floor-height default. -/
def q06 : ℚ := mkRat 6 10

/-- 0.3, the residential first-floor-height default. -/
def q03 : ℚ := mkRat 3 10

/-- 0.05 -/
def q005 : ℚ := mkRat 5 100

/-- 0.15 -/
def q015 : ℚ := mkRat 15 100

/-- 0.25 -/
def q025 : ℚ := mkRat 25 100

/-- 0.35 -/
def q035 : ℚ := mkRat 35 100

/-- 0.65 -/
def q065 : ℚ := mkRat 65 100

/-- 1.35 -/
def q135 : ℚ := mkRat 135 100

/-- 2.65 -/
def q265 : ℚ := mkRat 265 100

/-! ## Reference-table rows

The reference data files (`vulnerability_dict.csv`, `MCM_OED_*.csv`,
`postcode_dict.csv`, `yearbuilt.csv`, `wet_area_peril.parquet`) are externally
produced and not in the repository; their schemas follow spec §3/§6 and the
columns the source reads/writes.  `wet_area_peril.parquet` columns
(lat_id, lon_id, peril_id) are corroborated by
`useful_scripts/hack_wet_area_peril.py`. -/

/-- One row of `vulnerability_dict.csv` as loaded (peril_type is the raw
numeric code 1, 2, 3 or -9999 that `__init__` rewrites). -/
structure VulnRowRaw where
  mcm_code : Int
  coveragetype_id : Int
  peril_type : Int
  user_vulnerability_id : Int
  vulnerability_id : Int
deriving DecidableEq, Repr

/-- One row of the vulnerability table after the `__init__` reformulation
(peril_type is now a peril-id string, possibly a semicolon group). -/
structure VulnRow where
  mcm_code : Int
  coveragetype_id : Int
  peril_type : String
  user_vulnerability_id : Int
  vulnerability_id : Int
deriving DecidableEq, Repr

/-- The `__init__` rewrite of `coveragetype_id` (lines 199-207): CSV codes
1/3/4 are mapped to the `oasislmf` buildings/contents/bi ids (which are the
same values, so the mapping is the identity on them). -/
def reformCoverage (c : Int) : Int :=
  let c := if c = 1 then COV_BUILDINGS else c
  let c := if c = 3 then COV_CONTENTS else c
  if c = 4 then COV_BI else c

/-- The `__init__` rewrite of `peril_type` (lines 209-226): 1 to fluvial,
2 to pluvial, 3 to coastal, -9999 to the full semicolon group.  Other codes
are left as loaded (kept as their decimal text here, since the pandas column
holds them unchanged and they can never equal a peril-id string). -/
def reformPerilType (p : Int) : String :=
  if p = 1 then FLUVIAL_ID
  else if p = 2 then PLUVIAL_ID
  else if p = 3 then COASTAL_ID
  else if p = -9999 then allPerilsStr
  else toString p

/-- `__init__` reformulation of one vulnerability row. -/
def reformulateVulnRow (r : VulnRowRaw) : VulnRow :=
  { mcm_code := r.mcm_code
    coveragetype_id := reformCoverage r.coveragetype_id
    peril_type := reformPerilType r.peril_type
    user_vulnerability_id := r.user_vulnerability_id
    vulnerability_id := r.vulnerability_id }

/-- `__init__` reformulation of the vulnerability table. -/
def reformulateVuln (l : List VulnRowRaw) : List VulnRow := l.map reformulateVulnRow

/-- One row of `yearbuilt.csv`: links `yearbuilt` to a year-built category. -/
structure YearBuiltRow where
  yearbuilt : Int
  yb_cat : String
deriving DecidableEq, Repr

/-- One row of `MCM_OED_residential.csv`: links building category and
year-built category to an MCM code (spec §4.2: "Join category +
year-built-category against MCM-residential table"). -/
structure MCMResRow where
  building_cat : String
  yb_cat : String
  mcm_code : Int
deriving DecidableEq, Repr

/-- One row of `MCM_OED_nonresidential.csv`: links OED occupancy code to an
MCM code. -/
structure MCMNonResRow where
  occupancycode : Int
  mcm_code : Int
deriving DecidableEq, Repr

/-- One row of `postcode_dict.csv` after the `__init__` renaming and
postal-code normalization (lines 252-261). -/
structure PostcodeRow where
  postalcode : String
  pc_lat : ℚ
  pc_lon : ℚ
deriving DecidableEq, Repr

/-- One row of `wet_area_peril.parquet` (the at-risk grid). -/
structure AtRiskRow where
  lat_id : Int
  lon_id : Int
  peril_id : String
deriving DecidableEq, Repr

/-- The static reference tables loaded by `__init__` (already reformulated /
normalized where `__init__` does so). -/
structure StaticTables where
  vulnerability : List VulnRow
  mcm_res : List MCMResRow
  mcm_nonres : List MCMNonResRow
  postcode : List PostcodeRow
  yearbuilt : List YearBuiltRow
deriving DecidableEq, Repr

/-- The mutable state of a `GLOBAL_FLOODKeysLookup` object: the static tables
plus `self.at_risk_df`, which `process_locations` reassigns. -/
structure LookupState where
  static : StaticTables
  atRisk : List AtRiskRow
deriving DecidableEq, Repr

/-! ## Location rows -/

/-- One raw input location row (lower-cased columns), restricted to the
fields the engine uses (`USED_LOC_DF_COLUMNS`).  `none` stands for a missing
value or an absent column; both are replaced by the documented default for
the 13 normalized fields.  `user_vulnerability_id` is the renamed
`locuserdef1` column, defaulting to 0 when absent (lines 826-831). -/
structure RawLoc where
  loc_id : Int
  locnumber : Int
  portnumber : Int
  accnumber : Int
  user_vulnerability_id : Int
  locperilscovered : Option String
  buildingtype : Option Int
  occupancycode : Option Int
  constructioncode : Option Int
  numberofstoreys : Option Int
  floorsoccupied : Option String
  firstfloorheight : Option ℚ
  firstfloorheightunit : Option Int
  yearbuilt : Option Int
  bipoi : Option ℚ
  latitude : Option ℚ
  longitude : Option ℚ
  postalcode : Option String
deriving DecidableEq, Repr

/-- A working location row: the normalized input fields plus the derived
columns the stages create, initialized to "column not present yet" values.
`floorsoccupied_v` holds the integer that replaces the `floorsoccupied`
string column at the `apply` step (line 881); `latitude`/`longitude` are
`Option` because pandas floats may be `NaN`. -/
structure ELoc where
  loc_id : Int
  locnumber : Int
  portnumber : Int
  accnumber : Int
  user_vulnerability_id : Int
  locperilscovered : String
  buildingtype : Int
  occupancycode : Int
  constructioncode : Int
  numberofstoreys : Int
  floorsoccupied : String
  floorsoccupied_v : Int
  firstfloorheight : ℚ
  firstfloorheightunit : Int
  yearbuilt : Int
  bipoi : ℚ
  latitude : Option ℚ
  longitude : Option ℚ
  postalcode : String
  mobilehome_cat : Bool
  yb_cat : Option String
  building_cat : Option String
  mcm_code : Option Int
  ffh_cat : Option ℚ
  bipoi_cat : Option ℚ
  pc_lat : Option ℚ
  pc_lon : Option ℚ
deriving DecidableEq, Repr

/-- A candidate key row (`keys_df`): one location row crossed with one peril
and one coverage, plus the columns later stages add. -/
structure KRow extends ELoc where
  peril_id : String
  coveragetype_id : Int
  peril_type : String
  vulnerability_id : Option Int
  lat_id : Option Int
  lon_id : Option Int
  at_risk : Bool
  status : Option String
  message : Option String
deriving DecidableEq, Repr

/-- One output row of the keys DataFrame (the column projection at
lines 1048-1062). -/
structure ResultKey where
  loc_id : Int
  peril_id : String
  coverage_type : Int
  vulnerability_id : Int
  status : Option String
  message : Option String
  model_data : String
  catchment_id : Int
  lat_id : Option Int
  lon_id : Option Int
  area_peril_id : Int
deriving DecidableEq, Repr

/-! ## Field normalizer (lines 833-854) -/

/-- Normalization of a text field: absent column or missing value becomes the
default, then the empty-string sentinel is replaced by the default. -/
def normStr (v : Option String) (d : String) : String :=
  let s := v.getD d
  if s = "" then d else s

/-- Normalization of an integer field: absent column or missing value becomes
the default, then the zero sentinel is replaced by the default. -/
def normInt (v : Option Int) (d : Int) : Int :=
  let n := v.getD d
  if n = 0 then d else n

/-- Normalization of a float field: absent column or missing value becomes
the default (no zero-sentinel replacement for floats, per lines 849-854). -/
def normFloat (v : Option ℚ) (d : ℚ) : ℚ := v.getD d

/-- The field normalizer: applies the defaults/types table of
`self.default_field_values` to one row. -/
def normalizeLoc (r : RawLoc) : ELoc :=
  { loc_id := r.loc_id
    locnumber := r.locnumber
    portnumber := r.portnumber
    accnumber := r.accnumber
    user_vulnerability_id := r.user_vulnerability_id
    locperilscovered := normStr r.locperilscovered "ORF;OSF;WSS"
    buildingtype := normInt r.buildingtype 0
    occupancycode := normInt r.occupancycode 1000
    constructioncode := normInt r.constructioncode 5000
    numberofstoreys := normInt r.numberofstoreys 0
    floorsoccupied := normStr r.floorsoccupied "0"
    floorsoccupied_v := 0
    firstfloorheight := normFloat r.firstfloorheight (-999)
    firstfloorheightunit := normInt r.firstfloorheightunit 1
    yearbuilt := normInt r.yearbuilt 0
    bipoi := normFloat r.bipoi 365
    latitude := some (normFloat r.latitude 0)
    longitude := some (normFloat r.longitude 0)
    postalcode := normStr r.postalcode "-1"
    mobilehome_cat := false
    yb_cat := none
    building_cat := none
    mcm_code := none
    ffh_cat := none
    bipoi_cat := none
    pc_lat := none
    pc_lon := none }

/-! ## Classification engine -/

/-- `get_mobile_home` (lines 407-416): flag construction codes [5350, 5400)
with occupancy code below 1100. -/
def get_mobile_home (r : ELoc) : ELoc :=
  { r with mobilehome_cat :=
      decide (5350 ≤ r.constructioncode ∧ r.constructioncode < 5400 ∧
        r.occupancycode < 1100) }

/-- The `yearbuilt` left merge of `get_mcm_code_residential` (line 430):
join on the shared `yearbuilt` column; no match leaves the category null. -/
def ybJoin (t : List YearBuiltRow) (r : ELoc) : List ELoc :=
  let ms := t.filter (fun y => y.yearbuilt == r.yearbuilt)
  if ms.isEmpty then [{ r with yb_cat := none }]
  else ms.map (fun y => { r with yb_cat := some y.yb_cat })

/-- The building-category cascade of `get_mcm_code_residential`
(lines 432-482): each rule fills `building_cat` only while it is still null,
then the occupancy-code overrides always win. -/
def assignBuildingCat (r : ELoc) : ELoc :=
  let r := if r.mobilehome_cat then { r with building_cat := some "bungalow" } else r
  let r := if r.buildingtype = 1 ∧ r.numberofstoreys = 1 ∧ r.building_cat = none then
    { r with building_cat := some "bungalow" } else r
  let r := if r.buildingtype = 1 ∧ r.building_cat = none then
    { r with building_cat := some "detached" } else r
  let r := if r.buildingtype = 2 ∧ r.building_cat = none then
    { r with building_cat := some "semidetached" } else r
  let r := if (r.buildingtype = 3 ∨ r.buildingtype = 4) ∧ r.building_cat = none then
    { r with building_cat := some "terraced" } else r
  let r := if r.buildingtype = 5 ∧ 1 < r.numberofstoreys ∧ r.building_cat = none then
    { r with building_cat := some "detached" } else r
  let r := if r.buildingtype = 5 ∧ r.building_cat = none then
    { r with building_cat := some "bungalow" } else r
  let r := if r.occupancycode = 1052 ∨ r.occupancycode = 1055 then
    { r with building_cat := some "flat" } else r
  if r.occupancycode = 1056 then { r with building_cat := some "terraced" } else r

/-- The MCM-residential left merge (line 485): join on the shared
`building_cat` and `yb_cat` columns; null keys never match. -/
def mcmResJoin (t : List MCMResRow) (r : ELoc) : List ELoc :=
  let ms := t.filter (fun m =>
    some m.building_cat == r.building_cat && some m.yb_cat == r.yb_cat)
  if ms.isEmpty then [{ r with mcm_code := none }]
  else ms.map (fun m => { r with mcm_code := some m.mcm_code })

/-- The post-join residential overrides (lines 487-513): temporary lodging,
group institutional housing, and the general-residential fallback. -/
def resOverrides (r : ELoc) : ELoc :=
  let r := if r.occupancycode = 1053 then
    { r with mcm_code := some 51, building_cat := some "nonres" } else r
  let r := if r.occupancycode = 1054 then
    { r with mcm_code := some 6, building_cat := some "nonres" } else r
  if (r.occupancycode = 1050 ∨ r.occupancycode = 1051 ∨ r.occupancycode = 1000) ∧
      r.building_cat = none then
    { r with mcm_code := some 1, building_cat := some "general_res" } else r

/-- `get_mcm_code_residential` (lines 418-515). -/
def get_mcm_code_residential (tb : StaticTables) (r : ELoc) : List ELoc :=
  (ybJoin tb.yearbuilt r).flatMap (fun r1 =>
    (mcmResJoin tb.mcm_res (assignBuildingCat r1)).map resOverrides)

/-- `get_mcm_code_non_residential` (lines 517-531): left merge on the shared
`occupancycode` column, then `building_cat` is set to `"nonres"` for every
row. -/
def get_mcm_code_non_residential (tb : StaticTables) (r : ELoc) : List ELoc :=
  (let ms := tb.mcm_nonres.filter (fun m => m.occupancycode == r.occupancycode)
   if ms.isEmpty then [{ r with mcm_code := none }]
   else ms.map (fun m => { r with mcm_code := some m.mcm_code })).map
    (fun r => { r with building_cat := some "nonres" })

/-- `get_number_of_storeys` (lines 533-577). -/
def get_number_of_storeys (r : ELoc) : ELoc :=
  let r := if r.building_cat = some "bungalow" then { r with numberofstoreys := 0 } else r
  let r := if r.numberofstoreys = 0 ∧
      (r.building_cat = some "detached" ∨ r.building_cat = some "semidetached" ∨
        r.building_cat = some "terraced") then
    { r with numberofstoreys := 2 } else r
  let r := if r.numberofstoreys = 0 ∧ r.building_cat = some "flat" then
    { r with numberofstoreys := 1 } else r
  let r := if r.building_cat = some "general_res" then { r with numberofstoreys := 0 } else r
  let r := if r.numberofstoreys = 0 ∧ r.building_cat = some "nonres" then
    { r with numberofstoreys := 1 } else r
  if 6 < r.numberofstoreys then { r with numberofstoreys := 6 } else r

/-- Split a character list at semicolons, keeping empty pieces, like
Python's `"...".split(";")`. -/
def splitSemis (l : List Char) : List (List Char) :=
  l.foldr
    (fun ch acc =>
      if ch = ';' then [] :: acc
      else match acc with
        | [] => [[ch]]
        | g :: gs => (ch :: g) :: gs)
    [[]]

/-- Python `int()` on a decimal string (optional leading minus sign). -/
def parseIntChars (l : List Char) : Option Int :=
  let parseNat := fun (ds : List Char) =>
    if ds.isEmpty ∨ ¬ ds.all Char.isDigit then none
    else some (ds.foldl (fun n ch => 10 * n + (ch.toNat - 48)) (0 : Nat))
  match l with
  | '-' :: rest => (parseNat rest).map (fun n => -(n : Int))
  | _ => (parseNat l).map (fun n => (n : Int))

/-- The integers of the semicolon-separated `floorsoccupied` string.  A
non-integer entry makes `int()` raise in the source, aborting the run; such
entries are skipped here. -/
def parsedFloors (s : String) : List Int := (splitSemis s.data).filterMap parseIntChars

/-- `get_floors_occupied` (lines 579-594): minimum of the listed floors,
clamped to [0, 3]. -/
def get_floors_occupied (s : String) : Int :=
  let floors := match parsedFloors s with
    | [] => 0
    | a :: t => t.foldl min a
  let floors := max floors 0
  min 3 floors

/-- The `apply` at line 881 that replaces the `floorsoccupied` column with
its parsed integer. -/
def floorsStage (r : ELoc) : ELoc :=
  { r with floorsoccupied_v := get_floors_occupied r.floorsoccupied }

/-- The first-floor-height bucket guards of `get_first_floor_height`
(lines 727-756), in source order. -/
def ffhBucket (h : ℚ) : Option ℚ :=
  if 0 ≤ h ∧ h < q005 then some 0
  else if q005 ≤ h ∧ h < q015 then some q005
  else if q015 ≤ h ∧ h < q025 then some q015
  else if q025 ≤ h ∧ h < q035 then some q025
  else if q035 ≤ h ∧ h < q065 then some q035
  else if q065 ≤ h ∧ h < q135 then some q065
  else if q135 ≤ h ∧ h < q265 then some q135
  else if q265 ≤ h then some q265
  else none

/-- `get_first_floor_height` (lines 696-758): feet conversion, sentinel
defaults, then bucketing.  The bucket guards are pairwise disjoint, so the
sequence of conditional writes equals `ffhBucket` (and `ffh_cat` is still
unset when this stage runs, so an unmatched negative height leaves `none`). -/
def get_first_floor_height (r : ELoc) : ELoc :=
  let r := if r.firstfloorheightunit = 1 ∧ r.firstfloorheight ≠ -999 then
    { r with firstfloorheight := qmulc r.firstfloorheight c3048 } else r
  let r := if r.mobilehome_cat ∧ r.firstfloorheight = -999 then
    { r with firstfloorheight := q06 } else r
  let r := if r.building_cat = some "nonres" ∧ r.firstfloorheight = -999 then
    { r with firstfloorheight := q06 } else r
  let r := if r.firstfloorheight = -999 then { r with firstfloorheight := q03 } else r
  { r with ffh_cat := ffhBucket r.firstfloorheight }

/-- The residential-like building categories of `get_bi_poi`
(lines 608-631). -/
def isResBipoiCat (bc : Option String) : Bool :=
  bc == some "detached" || bc == some "semidetached" || bc == some "terraced" ||
    bc == some "flat" || bc == some "bungalow" || bc == some "general_res"

/-- The residential bipoi buckets of `get_bi_poi` (lines 608-631). -/
def resBipoiBucket (x : ℚ) : Option ℚ :=
  if 0 < x ∧ x ≤ 183 then some 1
  else if 183 < x then some 183
  else none

/-- The nonresidential bipoi ladder of `get_bi_poi` (lines 634-692). -/
def nonresBipoiBucket (x : ℚ) : Option ℚ :=
  if 0 < x ∧ x < 137 then some 0
  else if 137 ≤ x ∧ x < 228 then some 137
  else if 228 ≤ x ∧ x < 319 then some 228
  else if 319 ≤ x ∧ x < 411 then some 319
  else if 411 ≤ x ∧ x < 502 then some 411
  else if 502 ≤ x ∧ x < 593 then some 502
  else if 593 ≤ x ∧ x < 684 then some 593
  else if 684 ≤ x ∧ x < 776 then some 684
  else if 776 ≤ x ∧ x < 867 then some 776
  else if 867 ≤ x ∧ x < 958 then some 867
  else if 958 ≤ x ∧ x < 1049 then some 958
  else if 1049 ≤ x then some 1049
  else none

/-- `get_bi_poi` (lines 596-694): the value guards within each ladder are
pairwise disjoint and the residential/nonresidential category guards are
mutually exclusive, so the 14 conditional writes reduce to the bucket
functions; a row matching no guard keeps its (still unset) `bipoi_cat`. -/
def get_bi_poi (r : ELoc) : ELoc :=
  { r with bipoi_cat :=
      if isResBipoiCat r.building_cat then resBipoiBucket r.bipoi
      else if r.building_cat == some "nonres" then nonresBipoiBucket r.bipoi
      else r.bipoi_cat }

/-! ## Geocoder (`get_latlon`, lines 315-353) -/

/-- Postal-code normalization: strip spaces, uppercase
(`.str.replace(" ", "").str.upper()`). -/
def normalizePostcode (s : String) : String :=
  String.mk ((s.data.filter (fun ch => ch ≠ ' ')).map Char.toUpper)

/-- The postcode left merge of `get_latlon` (lines 328-333), after the
in-place postal-code normalization. -/
def pcJoin (t : List PostcodeRow) (r : ELoc) : List ELoc :=
  let r := { r with postalcode := normalizePostcode r.postalcode }
  let ms := t.filter (fun p => p.postalcode == r.postalcode)
  if ms.isEmpty then [{ r with pc_lat := none, pc_lon := none }]
  else ms.map (fun p => { r with pc_lat := some p.pc_lat, pc_lon := some p.pc_lon })

/-- The source guards the lat/lon overwrite with
`loc_df["pc_lat"].isnull().all() is False`.  `Series.all()` returns a
`numpy.bool_`, and the `is` identity comparison of a numpy bool with the
Python singleton `False` is false for either truth value, so this conjunct of
the mask is the constant `False`. -/
def npBoolIsPyFalse (_ : Bool) : Bool := false

/-- `get_latlon` (lines 315-353): normalize postal codes, left-merge the
centroid table, then conditionally overwrite invalid (0,0) coordinates.  The
overwrite mask conjoins two `... is False` comparisons on numpy bools
(`npBoolIsPyFalse`), so it selects no rows; were it able to select rows, the
substituted frame `temp_ll.filter(items=["latitude","longitude"])` has no
columns, so column alignment would assign `NaN` (`none`). -/
def get_latlon (t : List PostcodeRow) (rows : List ELoc) : List ELoc :=
  let rows := rows.flatMap (pcJoin t)
  let allNullLat := rows.all (fun r => r.pc_lat == none)
  let allNullLon := rows.all (fun r => r.pc_lon == none)
  rows.map (fun r =>
    if (r.latitude == some 0) && (r.longitude == some 0) &&
        npBoolIsPyFalse allNullLat && npBoolIsPyFalse allNullLon then
      { r with latitude := none, longitude := none }
    else r)

/-! ## Peril resolver (`get_peril`, lines 355-391) -/

/-- The peril-group expansion of `get_peril`, as the three sequential
conditional overwrites of the source (each mask reads the updated column). -/
def getPerilStr (s : String) : String :=
  let s := if s = ALL_GROUP then allPerilsStr else s
  let s := if s = FLOOD_WO_SURGE_GROUP then FLUVIAL_ID ++ ";" ++ PLUVIAL_ID else s
  if s = WINDSTORM_W_SURGE_GROUP then COASTAL_ID else s

/-- `get_peril` (lines 355-391). -/
def get_peril (r : ELoc) : ELoc :=
  { r with locperilscovered := getPerilStr r.locperilscovered }

/-! ## Key expander (lines 898-959) -/

/-- `self.perils` (line 313). -/
def perilsList : List String := [FLUVIAL_ID, PLUVIAL_ID, COASTAL_ID]

/-- `self.coverages` (lines 308-312). -/
def coveragesList : List Int := [COV_BUILDINGS, COV_CONTENTS, COV_BI]

/-- A candidate key row: a location row with `peril_id` and `coveragetype_id`
set and the later columns not yet present. -/
def mkCand (r : ELoc) (p : String) (c : Int) : KRow :=
  { toELoc := r
    peril_id := p
    coveragetype_id := c
    peril_type := ""
    vulnerability_id := none
    lat_id := none
    lon_id := none
    at_risk := false
    status := none
    message := none }

/-- The peril-by-coverage candidate expansion (lines 898-908): for each peril
and coverage, emit the rows whose resolved covered-peril string contains the
peril id as a substring. -/
def expandKeys (rows : List ELoc) : List KRow :=
  perilsList.flatMap (fun p =>
    coveragesList.flatMap (fun c =>
      (rows.filter (fun r => containsSubstr p r.locperilscovered)).map
        (fun r => mkCand r p c)))

/-- The field-suppression rules (lines 910-946), in source order. -/
def suppressFields (k : KRow) : KRow :=
  let k := if k.coveragetype_id ≠ COV_CONTENTS ∨
      (k.building_cat ≠ some "flat" ∧ k.building_cat ≠ some "nonres") then
    { k with floorsoccupied_v := -9999 } else k
  let k := if k.coveragetype_id ≠ COV_BI then { k with bipoi_cat := some (-9999) } else k
  let k := if k.coveragetype_id = COV_BI ∨
      (k.building_cat = some "flat" ∧ k.coveragetype_id = COV_CONTENTS) then
    { k with numberofstoreys := 0 } else k
  if k.coveragetype_id = COV_BI ∧ k.building_cat = some "nonres" then
    { k with mcm_code := some 0 } else k

/-- The `peril_type` assignment (lines 948-959): copy `peril_id`, then force
the full peril group for business-interruption rows. -/
def setPerilType (k : KRow) : KRow :=
  let k := { k with peril_type := k.peril_id }
  if k.coveragetype_id = COV_BI then { k with peril_type := allPerilsStr } else k

/-- The `fillna` of `mcm_code` and `bipoi_cat` (lines 961-964). -/
def fillKeys1 (k : KRow) : KRow :=
  { k with mcm_code := some (k.mcm_code.getD (-1)),
           bipoi_cat := some (k.bipoi_cat.getD (-1)) }

/-! ## Vulnerability resolver (line 967) -/

/-- One candidate matches one vulnerability row when the join keys agree
exactly.  The pandas merge joins on the columns shared by `keys_df` and the
vulnerability table; per spec §4.6 the key is (mcm_code, coverage type,
peril_type, user-override id).  Null keys never match. -/
def vulnMatches (v : VulnRow) (k : KRow) : Bool :=
  some v.mcm_code == k.mcm_code && v.coveragetype_id == k.coveragetype_id &&
    v.peril_type == k.peril_type && v.user_vulnerability_id == k.user_vulnerability_id

/-- The vulnerability left merge for one candidate row (line 967): matching
rows multiply the candidate; no match leaves a null `vulnerability_id`. -/
def vulnJoinRow (vdf : List VulnRow) (k : KRow) : List KRow :=
  let ms := vdf.filter (fun v => vulnMatches v k)
  if ms.isEmpty then [{ k with vulnerability_id := none }]
  else ms.map (fun v => { k with vulnerability_id := some v.vulnerability_id })

/-! ## Spatial risk index -/

/-- `get_latlon_ids` (lines 393-405): arc-second grid quantization
(`np.floor(latitude * 3600)`); `NaN` coordinates give `NaN` ids.
`Rat.floor` is the floor `⌊·⌋` of `ℚ` (`Rat.floor_def`). -/
def get_latlon_ids (k : KRow) : KRow :=
  { k with lat_id := k.latitude.map (fun x => Rat.floor (qmulZ x 3600)),
           lon_id := k.longitude.map (fun x => Rat.floor (qmulZ x 3600)) }

/-- The `fillna(-1)` of `vulnerability_id` (line 972). -/
def fillVuln (k : KRow) : KRow :=
  { k with vulnerability_id := some (k.vulnerability_id.getD (-1)) }

/-- The in-place narrowing of `self.at_risk_df` (lines 974-980): keep only
grid rows whose lat id, then lon id, appears among the batch's key rows. -/
def narrowAtRisk (tbl : List AtRiskRow) (latIds lonIds : List (Option Int)) :
    List AtRiskRow :=
  (tbl.filter (fun a => decide (some a.lat_id ∈ latIds))).filter
    (fun a => decide (some a.lon_id ∈ lonIds))

/-- At-risk membership (lines 982-988): a key row is at risk when some grid
row agrees with it on the shared columns lat_id, lon_id and peril_id. -/
def atRiskMem (tbl : List AtRiskRow) (k : KRow) : Bool :=
  tbl.any (fun a => decide (some a.lat_id = k.lat_id ∧ some a.lon_id = k.lon_id ∧
    a.peril_id = k.peril_id))

/-! ## Status classifier (lines 990-1039) -/

/-- The five sequential conditional status/message writes of
`process_locations` (lines 991-1039), on the initially absent status column.
`latDef`/`lonDef` are the `notna()` tests on `lat_id`/`lon_id`.  The status
ids and messages are the `OASIS_KEYS_STATUS[...]["id"]` strings of
`oasislmf` and the literal messages of the source. -/
def classifyStatus (vid : Int) (latDef lonDef atRisk : Bool) :
    Option (String × String) :=
  let w := fun (o : Option (String × String)) (cond : Bool) (v : String × String) =>
    if cond then some v else o
  let s := w none ((vid != -1) && latDef && lonDef && atRisk) ("success", "")
  let s := w s ((vid != -1) && latDef && lonDef && !atRisk)
    ("notatrisk", "area-peril and vulnerability valid, but location not exposed to this peril")
  let s := w s ((vid == -1) && latDef && lonDef)
    ("fail_v", "area-peril valid, vulnerability invalid")
  let s := w s ((vid != -1) && (!latDef || !lonDef))
    ("fail_ap", "vulnerability valid, area-peril invalid")
  w s ((vid == -1) && (!latDef || !lonDef)) ("fail", "area-peril and vulnerability invalid")

/-- Apply the at-risk test and the status classifier to one key row. -/
def classifyRow (tbl : List AtRiskRow) (k : KRow) : KRow :=
  let k := { k with at_risk := atRiskMem tbl k }
  match classifyStatus (k.vulnerability_id.getD (-1)) k.lat_id.isSome k.lon_id.isSome
    k.at_risk with
  | some (s, m) => { k with status := some s, message := some m }
  | none => k

/-! ## Catchment sampling and payload (`format_keys_df`, lines 760-809) -/

/-- The `model_data` JSON payload of `format_keys_df` (lines 787-804), with
`json.dumps` key order and `(",", ":")` separators. -/
def modelDataStr (k : KRow) (lai loi cid : Int) : String :=
  "\x7b\"lat_id\":" ++ toString lai ++
    ",\"lon_id\":" ++ toString loi ++
    ",\"catchment_id\":" ++ toString cid ++
    ",\"vulnerability_id\":" ++ toString (k.vulnerability_id.getD (-1)) ++
    ",\"user_vulnerability_id\":" ++ toString k.user_vulnerability_id ++
    ",\"peril_id\":\"" ++ k.peril_id ++
    "\",\"coverage\":\"" ++ coverageName k.coveragetype_id ++
    "\",\"coverage_type_id\":" ++ toString k.coveragetype_id ++
    ",\"loc_number\":" ++ toString k.locnumber ++
    ",\"port_number\":" ++ toString k.portnumber ++
    ",\"acc_number\":" ++ toString k.accnumber ++ "\x7d"

/-- `format_keys_df` for one row (lines 760-809): every row first gets the
defaults catchment_id = -1, area_peril_id = -1, model_data = ""; only rows
whose status is `success` are raster-sampled.  The raster is a function from
(lat, lon) to the sampled catchment pixel; `none` is the out-of-window
`IndexError`.  A negative or missing pixel demotes the row to the `fail`
status (`OASIS_KEYS_FL`) with the catchment message and leaves the defaults.
The unreachable arm (a success row with null coordinates would make
`int(NaN)` raise an uncaught error in the source) returns the defaults. -/
def format_keys_row (raster : ℚ → ℚ → Option Int) (k : KRow) : ResultKey :=
  let base : ResultKey :=
    { loc_id := k.loc_id
      peril_id := k.peril_id
      coverage_type := k.coveragetype_id
      vulnerability_id := k.vulnerability_id.getD (-1)
      status := k.status
      message := k.message
      model_data := ""
      catchment_id := -1
      lat_id := k.lat_id
      lon_id := k.lon_id
      area_peril_id := -1 }
  if k.status == some "success" then
    match k.latitude, k.longitude, k.lat_id, k.lon_id with
    | some la, some lo, some lai, some loi =>
      match raster la lo with
      | some cid =>
        if cid < 0 then
          { base with status := some "fail",
                      message := some "could not find catchment for lat/lon" }
        else
          { base with catchment_id := cid, model_data := modelDataStr k lai loi cid }
      | none =>
        { base with status := some "fail",
                    message := some "could not find catchment for lat/lon" }
    | _, _, _, _ => base
  else base

/-! ## The resolution pipeline (`process_locations`, lines 811-1063) -/

/-- Everything `process_locations` does before the at-risk narrowing:
normalization, classification engine, geocoder, peril resolver, key
expansion, suppression, vulnerability resolution and grid quantization.
Depends only on the static tables. -/
def resolvedKeys (tb : StaticTables) (raws : List RawLoc) : List KRow :=
  let locs := (raws.map normalizeLoc).map get_mobile_home
  let res := (locs.filter (fun r => r.occupancycode < 1100)).flatMap
    (get_mcm_code_residential tb)
  let nonres := (locs.filter (fun r => ¬ r.occupancycode < 1100)).flatMap
    (get_mcm_code_non_residential tb)
  let locs := res ++ nonres
  let locs := locs.map get_number_of_storeys
  let locs := locs.map floorsStage
  let locs := locs.map get_first_floor_height
  let locs := locs.map get_bi_poi
  let locs := get_latlon tb.postcode locs
  let locs := locs.map get_peril
  let keys := expandKeys locs
  let keys := keys.map suppressFields
  let keys := keys.map setPerilType
  let keys := keys.map fillKeys1
  let keys := keys.flatMap (vulnJoinRow tb.vulnerability)
  let keys := keys.map get_latlon_ids
  keys.map fillVuln

/-- `process_locations` (lines 811-1063): resolve the batch, narrow
`self.at_risk_df` in place to the batch's lat/lon ids, test at-risk
membership against the narrowed grid, classify, raster-sample, and project
the output columns.  Returns the keys rows and the lookup object's state
after the call. -/
def process_locations (raster : ℚ → ℚ → Option Int) (st : LookupState)
    (raws : List RawLoc) : List ResultKey × LookupState :=
  let pre := resolvedKeys st.static raws
  let latIds := pre.map (fun k => k.lat_id)
  let lonIds := pre.map (fun k => k.lon_id)
  let ar2 := narrowAtRisk st.atRisk latIds lonIds
  let cls := pre.map (classifyRow ar2)
  (cls.map (format_keys_row raster), { st with atRisk := ar2 })

/-! ## Bucket guard lists

The value guards of the binning `.loc` masks of `get_bi_poi` and
`get_first_floor_height`, as lists of boolean conditions in source order,
used to state that each binning ladder assigns exactly one bucket. -/

/-- The two residential bipoi guards of `get_bi_poi` (lines 608-631). -/
def resBipoiConds : List (ℚ → Bool) :=
  [fun x => decide (0 < x ∧ x ≤ 183),
   fun x => decide (183 < x)]

/-- The twelve nonresidential bipoi guards of `get_bi_poi`
(lines 634-692). -/
def nonresBipoiConds : List (ℚ → Bool) :=
  [fun x => decide (0 < x ∧ x < 137),
   fun x => decide (137 ≤ x ∧ x < 228),
   fun x => decide (228 ≤ x ∧ x < 319),
   fun x => decide (319 ≤ x ∧ x < 411),
   fun x => decide (411 ≤ x ∧ x < 502),
   fun x => decide (502 ≤ x ∧ x < 593),
   fun x => decide (593 ≤ x ∧ x < 684),
   fun x => decide (684 ≤ x ∧ x < 776),
   fun x => decide (776 ≤ x ∧ x < 867),
   fun x => decide (867 ≤ x ∧ x < 958),
   fun x => decide (958 ≤ x ∧ x < 1049),
   fun x => decide (1049 ≤ x)]

/-- The eight first-floor-height guards of `get_first_floor_height`
(lines 727-756). -/
def ffhConds : List (ℚ → Bool) :=
  [fun x => decide ((0 : ℚ) ≤ x ∧ x < q005),
   fun x => decide (q005 ≤ x ∧ x < q015),
   fun x => decide (q015 ≤ x ∧ x < q025),
   fun x => decide (q025 ≤ x ∧ x < q035),
   fun x => decide (q035 ≤ x ∧ x < q065),
   fun x => decide (q065 ≤ x ∧ x < q135),
   fun x => decide (q135 ≤ x ∧ x < q265),
   fun x => decide (q265 ≤ x)]

/-- An ordered ladder of half-open bucket guards over a breakpoint list:
`b ≤ x < b'` for each adjacent pair, and `b ≤ x` for the last breakpoint.
Both binning ladders above are of this shape past their first guard. -/
def ladderConds : List ℚ → List (ℚ → Bool)
  | [] => []
  | [b] => [fun x => decide (b ≤ x)]
  | b :: b' :: rest => (fun x => decide (b ≤ x ∧ x < b')) :: ladderConds (b' :: rest)

/-! ## Concrete fixtures

A small concrete lookup state and input batch used to evaluate the embedded
pipeline at explicit inputs. -/

/-- A small static-table fixture: one vulnerability row for
(mcm 7, buildings, fluvial, no override), one residential MCM rule, one
year-built category. -/
def wTables : StaticTables :=
  { vulnerability := [⟨7, 1, "ORF", 0, 42⟩]
    mcm_res := [⟨"detached", "y1", 7⟩]
    mcm_nonres := []
    postcode := []
    yearbuilt := [⟨0, "y1"⟩] }

/-- A concrete raw location: detached residential at (0, 0) covering only
the fluvial peril. -/
def wRaw : RawLoc :=
  { loc_id := 1, locnumber := 1, portnumber := 1, accnumber := 1
    user_vulnerability_id := 0
    locperilscovered := some "ORF"
    buildingtype := some 1
    occupancycode := some 1051
    constructioncode := some 5000
    numberofstoreys := some 2
    floorsoccupied := some "0"
    firstfloorheight := some q03
    firstfloorheightunit := some 2
    yearbuilt := some 0
    bipoi := some 365
    latitude := some 0
    longitude := some 0
    postalcode := some "X" }

/-- A lookup state whose at-risk grid contains the (0, 0) fluvial cell and
one unrelated cell. -/
def wState : LookupState :=
  { static := wTables, atRisk := [⟨0, 0, "ORF"⟩, ⟨191322, -4197, "OSF"⟩] }

/-- A raster fixture whose every pixel holds catchment 5. -/
def wRaster : ℚ → ℚ → Option Int := fun _ _ => some 5

/-- The second output row of `process_locations wRaster wState [wRaw]`:
the contents-coverage candidate, which finds no vulnerability row. -/
def wOutRow : ResultKey :=
  { loc_id := 1, peril_id := "ORF", coverage_type := 3, vulnerability_id := -1
    status := some "fail_v", message := some "area-peril valid, vulnerability invalid"
    model_data := "", catchment_id := -1, lat_id := some 0, lon_id := some 0
    area_peril_id := -1 }

/-- A candidate key row fixture built from `wRaw` (status still unset). -/
def wKRow : KRow := mkCand (normalizeLoc wRaw) FLUVIAL_ID COV_BUILDINGS

/-- A lookup state for exercising the in-place at-risk narrowing: its only
grid row is far from `wRaw`'s (0, 0) cell. -/
def c4State : LookupState :=
  { static := wTables, atRisk := [⟨191322, -4197, "OSF"⟩] }

/-- A one-entry postcode-centroid fixture (51.5, -0.125). -/
def c3Tbl : List PostcodeRow := [⟨"AB12CD", mkRat 103 2, mkRat (-1) 8⟩]

/-- A normalized location with supplied coordinates (0, 0) whose postal code
matches `c3Tbl` after normalization. -/
def c3Loc : ELoc := normalizeLoc { wRaw with postalcode := some "ab1 2cd" }

/-- A candidate key fixture for the vulnerability join: single peril
`FLUVIAL_ID`, buildings coverage, mcm code 1, no override. -/
def c2Key : KRow := { wKRow with mcm_code := some 1, peril_type := FLUVIAL_ID }

/-! # Theorems -/

/-- `qmulZ` is multiplication by an integer constant. -/
theorem qmulZ_eq (x : ℚ) (m : Int) : qmulZ x m = x * (m : ℚ) := by
  rw [qmulZ, Rat.mkRat_eq_div, Int.cast_mul, mul_div_right_comm, Rat.num_div_den]

/-- `qmulc` is multiplication. -/
theorem qmulc_eq (x c : ℚ) : qmulc x c = x * c := by
  rw [qmulc, Rat.mkRat_eq_div, Int.cast_mul, Nat.cast_mul, ← div_mul_div_comm,
    Rat.num_div_den, Rat.num_div_den]

/-- `Rat.floor` is the floor of `ℚ`. -/
theorem rat_floor_eq (x : ℚ) : Rat.floor x = Int.floor x :=
  (Rat.floor_def' x).trans Rat.floor_def.symm

/-- The decimal constants of the embedding. -/
theorem q_constants_eq :
    c3048 = (3048 : ℚ) / 10000 ∧ q06 = (6 : ℚ) / 10 ∧ q03 = (3 : ℚ) / 10 ∧
    q005 = (5 : ℚ) / 100 ∧ q015 = (15 : ℚ) / 100 ∧ q025 = (25 : ℚ) / 100 ∧
    q035 = (35 : ℚ) / 100 ∧ q065 = (65 : ℚ) / 100 ∧ q135 = (135 : ℚ) / 100 ∧
    q265 = (265 : ℚ) / 100 := by
  refine ⟨?_, ?_, ?_, ?_, ?_, ?_, ?_, ?_, ?_, ?_⟩ <;>
    simp [c3048, q06, q03, q005, q015, q025, q035, q065, q135, q265,
      Rat.mkRat_eq_div]

/-- Below the first breakpoint of an ordered ladder, no guard holds. -/
theorem ladder_countP_zero (x : ℚ) :
    ∀ l : List ℚ, l.Chain' (· < ·) → (∀ b ∈ l.head?, x < b) →
      (ladderConds l).countP (fun c => c x) = 0
  | [] => fun _ _ => by simp [ladderConds]
  | [b] => fun _ h => by
      have hb := h b rfl
      simp [ladderConds, not_le.mpr hb]
  | b :: b' :: rest => fun hc h => by
      have hb := h b rfl
      obtain ⟨hbb, hc'⟩ := List.chain'_cons.mp hc
      have ih := ladder_countP_zero x (b' :: rest) hc'
        (fun c hcc => by
          simp only [List.head?_cons, Option.mem_def, Option.some.injEq] at hcc
          exact hcc ▸ lt_trans hb hbb)
      have hno : ¬ (b ≤ x ∧ x < b') := fun hh => absurd hb (not_lt.mpr hh.1)
      simp [ladderConds, List.countP_cons, ih, hno]

/-- At or above the first breakpoint of an ordered ladder, exactly one guard
holds. -/
theorem ladder_countP_one (x : ℚ) :
    ∀ (rest : List ℚ) (b : ℚ), (b :: rest).Chain' (· < ·) → b ≤ x →
      (ladderConds (b :: rest)).countP (fun c => c x) = 1
  | [] => fun _ _ hb => by simp [ladderConds, hb]
  | b' :: rest => fun b hc hb => by
      obtain ⟨hbb, hc'⟩ := List.chain'_cons.mp hc
      by_cases hx : x < b'
      · have h0 := ladder_countP_zero x (b' :: rest) hc'
          (fun c hcc => by
            simp only [List.head?_cons, Option.mem_def, Option.some.injEq] at hcc
            exact hcc ▸ hx)
        simp [ladderConds, List.countP_cons, h0, hb, hx]
      · have h1 := ladder_countP_one x rest b' hc' (not_lt.mp hx)
        have hno : ¬ (b ≤ x ∧ x < b') := fun hh => hx hh.2
        simp [ladderConds, List.countP_cons, h1, hno]

/-- The nonresidential guard list is the strict first rung followed by an
ordered ladder. -/
theorem nonresBipoiConds_eq_ladder :
    nonresBipoiConds = (fun x => decide (0 < x ∧ x < 137)) ::
      ladderConds [137, 228, 319, 411, 502, 593, 684, 776, 867, 958, 1049] := rfl

/-- The first-floor-height guard list is an ordered ladder from 0. -/
theorem ffhConds_eq_ladder :
    ffhConds = ladderConds [0, q005, q015, q025, q035, q065, q135, q265] := rfl

/-- C7 counterexample: bipoi = 0 is a non-negative value assigned no bucket
by either bipoi ladder — every guard of both ladders requires a strictly
positive value, so the buckets do not cover all of [0, ∞). -/
theorem c7_counterexample :
    resBipoiBucket 0 = none ∧ nonresBipoiBucket 0 = none ∧
    resBipoiConds.countP (fun c => c 0) = 0 ∧
    nonresBipoiConds.countP (fun c => c 0) = 0 := by decide

/-- C7 (amended): for every strictly positive bipoi value, each bipoi ladder
(residential and nonresidential) satisfies exactly one guard and assigns
exactly one bucket; for every non-negative first-floor height, the height
ladder satisfies exactly one guard and assigns exactly one bucket.  The
bipoi buckets partition (0, ∞) — not [0, ∞): the value 0 falls in no
bucket (see the counterexample) — while the height buckets do partition
[0, ∞). -/
theorem c7_binning_partition (x : ℚ) :
    (0 < x →
      resBipoiConds.countP (fun c => c x) = 1 ∧
      nonresBipoiConds.countP (fun c => c x) = 1 ∧
      (resBipoiBucket x).isSome ∧ (nonresBipoiBucket x).isSome) ∧
    (0 ≤ x →
      ffhConds.countP (fun c => c x) = 1 ∧ (ffhBucket x).isSome) := by
  constructor
  · intro hx
    refine ⟨?_, ?_, ?_, ?_⟩
    · rcases le_or_lt x 183 with h | h
      · simp [resBipoiConds, List.countP_cons, hx, h, not_lt.mpr h]
      · simp [resBipoiConds, List.countP_cons, h, not_le.mpr h]
    · rw [nonresBipoiConds_eq_ladder, List.countP_cons]
      rcases lt_or_le x 137 with h | h
      · have h0 := ladder_countP_zero x [137, 228, 319, 411, 502, 593, 684, 776, 867, 958, 1049]
          (by simp only [List.chain'_cons, List.chain'_singleton, and_true]; norm_num)
          (fun c hcc => by
            simp only [List.head?_cons, Option.mem_def, Option.some.injEq] at hcc
            exact hcc ▸ h)
        simp [h0, hx, h]
      · have h1 := ladder_countP_one x [228, 319, 411, 502, 593, 684, 776, 867, 958, 1049] 137
          (by simp only [List.chain'_cons, List.chain'_singleton, and_true]; norm_num) h
        simp [h1, not_lt.mpr h]
    · rcases le_or_lt x 183 with h | h
      · simp [resBipoiBucket, hx, h]
      · simp [resBipoiBucket, h, not_le.mpr h]
    · rcases lt_or_le x 137 with h1 | h1
      · simp [nonresBipoiBucket, hx, h1]
      · rcases lt_or_le x 228 with h2 | h2
        · simp [nonresBipoiBucket, not_lt.mpr h1, h1, h2]
        · rcases lt_or_le x 319 with h3 | h3
          · simp [nonresBipoiBucket, not_lt.mpr h1, not_lt.mpr h2, h2, h3]
          · rcases lt_or_le x 411 with h4 | h4
            · simp [nonresBipoiBucket, not_lt.mpr h1, not_lt.mpr h2, not_lt.mpr h3, h3, h4]
            · rcases lt_or_le x 502 with h5 | h5
              · simp [nonresBipoiBucket, not_lt.mpr h1, not_lt.mpr h2, not_lt.mpr h3,
                  not_lt.mpr h4, h4, h5]
              · rcases lt_or_le x 593 with h6 | h6
                · simp [nonresBipoiBucket, not_lt.mpr h1, not_lt.mpr h2, not_lt.mpr h3,
                    not_lt.mpr h4, not_lt.mpr h5, h5, h6]
                · rcases lt_or_le x 684 with h7 | h7
                  · simp [nonresBipoiBucket, not_lt.mpr h1, not_lt.mpr h2, not_lt.mpr h3,
                      not_lt.mpr h4, not_lt.mpr h5, not_lt.mpr h6, h6, h7]
                  · rcases lt_or_le x 776 with h8 | h8
                    · simp [nonresBipoiBucket, not_lt.mpr h1, not_lt.mpr h2, not_lt.mpr h3,
                        not_lt.mpr h4, not_lt.mpr h5, not_lt.mpr h6, not_lt.mpr h7, h7, h8]
                    · rcases lt_or_le x 867 with h9 | h9
                      · simp [nonresBipoiBucket, not_lt.mpr h1, not_lt.mpr h2, not_lt.mpr h3,
                          not_lt.mpr h4, not_lt.mpr h5, not_lt.mpr h6, not_lt.mpr h7,
                          not_lt.mpr h8, h8, h9]
                      · rcases lt_or_le x 958 with h10 | h10
                        · simp [nonresBipoiBucket, not_lt.mpr h1, not_lt.mpr h2, not_lt.mpr h3,
                            not_lt.mpr h4, not_lt.mpr h5, not_lt.mpr h6, not_lt.mpr h7,
                            not_lt.mpr h8, not_lt.mpr h9, h9, h10]
                        · rcases lt_or_le x 1049 with h11 | h11
                          · simp [nonresBipoiBucket, not_lt.mpr h1, not_lt.mpr h2,
                              not_lt.mpr h3, not_lt.mpr h4, not_lt.mpr h5, not_lt.mpr h6,
                              not_lt.mpr h7, not_lt.mpr h8, not_lt.mpr h9, not_lt.mpr h10,
                              h10, h11]
                          · simp [nonresBipoiBucket, not_lt.mpr h1, not_lt.mpr h2,
                              not_lt.mpr h3, not_lt.mpr h4, not_lt.mpr h5, not_lt.mpr h6,
                              not_lt.mpr h7, not_lt.mpr h8, not_lt.mpr h9, not_lt.mpr h10,
                              not_lt.mpr h11, h11]
  · intro hx
    constructor
    · rw [ffhConds_eq_ladder]
      exact ladder_countP_one x [q005, q015, q025, q035, q065, q135, q265] 0
        (by simp only [List.chain'_cons, List.chain'_singleton, and_true]
            norm_num [q005, q015, q025, q035, q065, q135, q265, Rat.mkRat_eq_div]) hx
    · rcases lt_or_le x q005 with h1 | h1
      · simp [ffhBucket, hx, h1]
      · rcases lt_or_le x q015 with h2 | h2
        · simp [ffhBucket, not_lt.mpr h1, h1, h2]
        · rcases lt_or_le x q025 with h3 | h3
          · simp [ffhBucket, not_lt.mpr h1, not_lt.mpr h2, h2, h3]
          · rcases lt_or_le x q035 with h4 | h4
            · simp [ffhBucket, not_lt.mpr h1, not_lt.mpr h2, not_lt.mpr h3, h3, h4]
            · rcases lt_or_le x q065 with h5 | h5
              · simp [ffhBucket, not_lt.mpr h1, not_lt.mpr h2, not_lt.mpr h3, not_lt.mpr h4,
                  h4, h5]
              · rcases lt_or_le x q135 with h6 | h6
                · simp [ffhBucket, not_lt.mpr h1, not_lt.mpr h2, not_lt.mpr h3,
                    not_lt.mpr h4, not_lt.mpr h5, h5, h6]
                · rcases lt_or_le x q265 with h7 | h7
                  · simp [ffhBucket, not_lt.mpr h1, not_lt.mpr h2, not_lt.mpr h3,
                      not_lt.mpr h4, not_lt.mpr h5, not_lt.mpr h6, h6, h7]
                  · simp [ffhBucket, not_lt.mpr h1, not_lt.mpr h2, not_lt.mpr h3,
                      not_lt.mpr h4, not_lt.mpr h5, not_lt.mpr h6, not_lt.mpr h7, h7]

/-- Counting one pair among the pairs with a fixed first component over a
duplicate-free second-component list. -/
theorem count_map_pair {α β : Type} [DecidableEq α] [DecidableEq β]
    (a : α) (C : List β) (hC : C.Nodup) (p : α) (c : β) :
    (C.map (fun b => (a, b))).count (p, c) = if p = a ∧ c ∈ C then 1 else 0 := by
  induction C with
  | nil => simp
  | cons b C ih =>
    obtain ⟨hb, hC'⟩ := List.nodup_cons.mp hC
    rw [List.map_cons, List.count_cons, ih hC']
    by_cases hp : p = a
    · subst hp
      by_cases hc : c = b
      · subst hc
        simp [hb]
      · simp [hc, Ne.symm hc, List.mem_cons]
    · simp [hp, Ne.symm hp, List.mem_cons]

/-- A flat map producing singletons is a map. -/
theorem flatMap_singleton_map {β γ : Type} (C : List β) (g : β → γ) :
    C.flatMap (fun b => [g b]) = C.map g := by
  induction C with
  | nil => rfl
  | cons b C ih => simp [ih]

/-- A guarded singleton flat map is a guarded map. -/
theorem flatMap_guard {α β γ : Type} (C : List β) (a : α) (f : α → Bool)
    (g : α → β → γ) :
    C.flatMap (fun b => if f a then [g a b] else []) =
      if f a then C.map (g a) else [] := by
  by_cases hf : f a <;> simp [hf, flatMap_singleton_map C (fun b => g a b)]

/-- Counting one pair among the guarded cross product of two duplicate-free
lists: each pair whose guard holds occurs exactly once. -/
theorem count_guard_pairs {α β : Type} [DecidableEq α] [DecidableEq β]
    (P : List α) (C : List β) (f : α → Bool) (hP : P.Nodup) (hC : C.Nodup)
    (p : α) (c : β) :
    (P.flatMap (fun a => C.flatMap (fun b => if f a then [(a, b)] else []))).count
        (p, c) =
      if p ∈ P ∧ c ∈ C ∧ f p then 1 else 0 := by
  induction P with
  | nil => simp
  | cons a P ih =>
    obtain ⟨ha, hP'⟩ := List.nodup_cons.mp hP
    rw [List.flatMap_cons, List.count_append, ih hP',
      flatMap_guard C a f (fun a b => (a, b))]
    by_cases hf : f a
    · rw [if_pos hf, count_map_pair a C hC]
      by_cases hp : p = a
      · subst hp
        simp [ha, hf, List.mem_cons]
      · simp [hp, List.mem_cons]
    · rw [if_neg hf]
      by_cases hp : p = a
      · subst hp
        simp [hf]
      · simp [hp, List.mem_cons]

/-- The length of the guarded cross product. -/
theorem length_guard_pairs {α β γ : Type} (P : List α) (C : List β) (f : α → Bool)
    (g : α → β → γ) :
    (P.flatMap (fun a => C.flatMap (fun b => if f a then [g a b] else []))).length =
      C.length * (P.filter f).length := by
  induction P with
  | nil => simp
  | cons a P ih =>
    rw [List.flatMap_cons, List.length_append, ih, flatMap_guard]
    by_cases hf : f a
    · rw [if_pos hf, List.filter_cons_of_pos hf, List.length_map, List.length_cons,
        Nat.mul_succ]
      omega
    · rw [if_neg hf, List.filter_cons_of_neg hf, List.length_nil]
      omega

/-- The candidate expansion of a single location row, as a guarded cross
product over the perils and coverages. -/
theorem expandKeys_single (r : ELoc) :
    expandKeys [r] = perilsList.flatMap (fun p => coveragesList.flatMap
      (fun c => if containsSubstr p r.locperilscovered then [mkCand r p c] else [])) := by
  by_cases h1 : containsSubstr FLUVIAL_ID r.locperilscovered <;>
  by_cases h2 : containsSubstr PLUVIAL_ID r.locperilscovered <;>
  by_cases h3 : containsSubstr COASTAL_ID r.locperilscovered <;>
    simp [expandKeys, perilsList, coveragesList, h1, h2, h3]

/-- The (peril, coverage) pairs of the candidate expansion of a single
location row. -/
theorem expandKeys_single_pairs (r : ELoc) :
    (expandKeys [r]).map (fun k => (k.peril_id, k.coveragetype_id)) =
      perilsList.flatMap (fun p => coveragesList.flatMap
        (fun c => if containsSubstr p r.locperilscovered then [(p, c)] else [])) := by
  rw [expandKeys_single]
  simp only [List.map_flatMap, apply_ite (List.map (fun k : KRow =>
    (k.peril_id, k.coveragetype_id))), List.map_cons, List.map_nil, mkCand]

/-- C5: after peril-group expansion of the covered-peril field ("all" group
to fluvial;pluvial;coastal, "flood w/o storm surge" to fluvial;pluvial,
"windstorm w/ storm surge" to coastal, anything else unchanged), the key
expansion emits exactly one candidate row per (peril, coverage) pair over
the 3 perils and 3 coverages whose peril id is a substring of the resolved
covered-peril string; the candidate count equals 3 times the number of
covered perils and is at most 9. -/
theorem c5_expansion (r : ELoc) (p : String) (c : Int)
    (hng : r.locperilscovered ≠ ALL_GROUP ∧
      r.locperilscovered ≠ FLOOD_WO_SURGE_GROUP ∧
      r.locperilscovered ≠ WINDSTORM_W_SURGE_GROUP) :
    getPerilStr ALL_GROUP = allPerilsStr ∧
    getPerilStr FLOOD_WO_SURGE_GROUP = FLUVIAL_ID ++ ";" ++ PLUVIAL_ID ∧
    getPerilStr WINDSTORM_W_SURGE_GROUP = COASTAL_ID ∧
    getPerilStr r.locperilscovered = r.locperilscovered ∧
    ((expandKeys [get_peril r]).map (fun k => (k.peril_id, k.coveragetype_id))).count
        (p, c) =
      (if p ∈ perilsList ∧ c ∈ coveragesList ∧
          containsSubstr p (get_peril r).locperilscovered then 1 else 0) ∧
    (expandKeys [get_peril r]).length =
      3 * (perilsList.filter
        (fun q => containsSubstr q (get_peril r).locperilscovered)).length ∧
    (expandKeys [get_peril r]).length ≤ 9 := by
  obtain ⟨h1, h2, h3⟩ := hng
  refine ⟨by decide, by decide, by decide, ?_, ?_, ?_, ?_⟩
  · simp only [getPerilStr]
    rw [if_neg h1, if_neg h2, if_neg h3]
  · rw [expandKeys_single_pairs (get_peril r)]
    exact count_guard_pairs perilsList coveragesList _ (by decide) (by decide) p c
  · have hlen := congrArg List.length (expandKeys_single_pairs (get_peril r))
    rw [List.length_map] at hlen
    rw [hlen, length_guard_pairs perilsList coveragesList _ (fun p c => (p, c))]
    rfl
  · have hlen := congrArg List.length (expandKeys_single_pairs (get_peril r))
    rw [List.length_map] at hlen
    rw [hlen, length_guard_pairs perilsList coveragesList _ (fun p c => (p, c))]
    have hf := List.length_filter_le
      (fun q => containsSubstr q (get_peril r).locperilscovered) perilsList
    have h9 : perilsList.length = 3 := rfl
    have hc3 : coveragesList.length = 3 := rfl
    rw [h9] at hf
    rw [hc3]
    omega

/-- Witness for C5 at a concrete location row covering only the fluvial
peril. -/
theorem c5_expansion_witness :
    getPerilStr ALL_GROUP = allPerilsStr ∧
    getPerilStr FLOOD_WO_SURGE_GROUP = FLUVIAL_ID ++ ";" ++ PLUVIAL_ID ∧
    getPerilStr WINDSTORM_W_SURGE_GROUP = COASTAL_ID ∧
    getPerilStr (normalizeLoc wRaw).locperilscovered =
      (normalizeLoc wRaw).locperilscovered ∧
    ((expandKeys [get_peril (normalizeLoc wRaw)]).map
        (fun k => (k.peril_id, k.coveragetype_id))).count (FLUVIAL_ID, COV_BUILDINGS) =
      (if FLUVIAL_ID ∈ perilsList ∧ COV_BUILDINGS ∈ coveragesList ∧
          containsSubstr FLUVIAL_ID (get_peril (normalizeLoc wRaw)).locperilscovered
        then 1 else 0) ∧
    (expandKeys [get_peril (normalizeLoc wRaw)]).length =
      3 * (perilsList.filter (fun q =>
        containsSubstr q (get_peril (normalizeLoc wRaw)).locperilscovered)).length ∧
    (expandKeys [get_peril (normalizeLoc wRaw)]).length ≤ 9 :=
  c5_expansion (normalizeLoc wRaw) FLUVIAL_ID COV_BUILDINGS
    (by refine ⟨?_, ?_, ?_⟩ <;> decide)

/-- Narrowing the at-risk grid to lat/lon id lists that contain a key row's
own ids does not change that row's at-risk membership: any grid row matching
the key row survives both filters. -/
theorem atRiskMem_narrow (tbl : List AtRiskRow) (latIds lonIds : List (Option Int))
    (k : KRow) (h1 : k.lat_id ∈ latIds) (h2 : k.lon_id ∈ lonIds) :
    atRiskMem (narrowAtRisk tbl latIds lonIds) k = atRiskMem tbl k := by
  rw [Bool.eq_iff_iff]
  unfold atRiskMem narrowAtRisk
  simp only [List.any_eq_true, List.mem_filter, decide_eq_true_eq]
  constructor
  · rintro ⟨a, ⟨⟨ha, _⟩, _⟩, hm⟩
    exact ⟨a, ha, hm⟩
  · rintro ⟨a, ha, e1, e2, e3⟩
    refine ⟨a, ⟨⟨ha, ?_⟩, ?_⟩, e1, e2, e3⟩
    · rw [e1]; exact h1
    · rw [e2]; exact h2

/-- Classifying against a twice-narrowed grid (with the same id lists,
computed from the same key rows) equals classifying against the
once-narrowed grid. -/
theorem classify_narrow_twice (tbl : List AtRiskRow) (pre : List KRow) :
    pre.map (classifyRow (narrowAtRisk
        (narrowAtRisk tbl (pre.map (fun k => k.lat_id)) (pre.map (fun k => k.lon_id)))
        (pre.map (fun k => k.lat_id)) (pre.map (fun k => k.lon_id)))) =
      pre.map (classifyRow (narrowAtRisk tbl (pre.map (fun k => k.lat_id))
        (pre.map (fun k => k.lon_id)))) := by
  apply List.map_congr_left
  intro k hk
  unfold classifyRow
  rw [atRiskMem_narrow _ _ _ _ (List.mem_map_of_mem _ hk) (List.mem_map_of_mem _ hk)]

/-- C8: resolving an identical batch twice on the same lookup object, with
the same raster, yields identical keys rows.  The first call's in-place
narrowing of the at-risk grid keeps every grid row that can match a key row
of this batch, so the second call's at-risk memberships — and hence its
statuses, messages and payloads — coincide with the first call's; every
other pipeline stage is a pure function of the batch and the static tables,
with no hidden time or order dependence. -/
theorem c8_repeat_resolution (raster : ℚ → ℚ → Option Int) (st : LookupState)
    (raws : List RawLoc) :
    (process_locations raster st raws).1 =
      (process_locations raster ((process_locations raster st raws).2) raws).1 := by
  simp only [process_locations]
  rw [classify_narrow_twice]

/-- The normalizer always produces defined coordinates (missing values take
the default 0). -/
theorem normalizeLoc_latlon (w : RawLoc) :
    (normalizeLoc w).latitude = some (normFloat w.latitude 0) ∧
    (normalizeLoc w).longitude = some (normFloat w.longitude 0) := ⟨rfl, rfl⟩

/-- The per-row classification stages leave the coordinates unchanged. -/
theorem get_mobile_home_latlon (r : ELoc) :
    (get_mobile_home r).latitude = r.latitude ∧
    (get_mobile_home r).longitude = r.longitude := ⟨rfl, rfl⟩

/-- The building-category cascade leaves the coordinates unchanged. -/
theorem assignBuildingCat_latlon (r : ELoc) :
    (assignBuildingCat r).latitude = r.latitude ∧
    (assignBuildingCat r).longitude = r.longitude := by
  constructor <;>
    simp only [assignBuildingCat, apply_ite (fun e : ELoc => e.latitude),
      apply_ite (fun e : ELoc => e.longitude), ite_self]

/-- The residential overrides leave the coordinates unchanged. -/
theorem resOverrides_latlon (r : ELoc) :
    (resOverrides r).latitude = r.latitude ∧
    (resOverrides r).longitude = r.longitude := by
  constructor <;>
    simp only [resOverrides, apply_ite (fun e : ELoc => e.latitude),
      apply_ite (fun e : ELoc => e.longitude), ite_self]

/-- The storeys stage leaves the coordinates unchanged. -/
theorem get_number_of_storeys_latlon (r : ELoc) :
    (get_number_of_storeys r).latitude = r.latitude ∧
    (get_number_of_storeys r).longitude = r.longitude := by
  constructor <;>
    simp only [get_number_of_storeys, apply_ite (fun e : ELoc => e.latitude),
      apply_ite (fun e : ELoc => e.longitude), ite_self]

/-- The floors-occupied stage leaves the coordinates unchanged. -/
theorem floorsStage_latlon (r : ELoc) :
    (floorsStage r).latitude = r.latitude ∧
    (floorsStage r).longitude = r.longitude := ⟨rfl, rfl⟩

/-- The first-floor-height stage leaves the coordinates unchanged. -/
theorem get_first_floor_height_latlon (r : ELoc) :
    (get_first_floor_height r).latitude = r.latitude ∧
    (get_first_floor_height r).longitude = r.longitude := by
  constructor <;>
    simp only [get_first_floor_height, apply_ite (fun e : ELoc => e.latitude),
      apply_ite (fun e : ELoc => e.longitude), ite_self]

/-- The bipoi stage leaves the coordinates unchanged. -/
theorem get_bi_poi_latlon (r : ELoc) :
    (get_bi_poi r).latitude = r.latitude ∧
    (get_bi_poi r).longitude = r.longitude := ⟨rfl, rfl⟩

/-- The peril stage leaves the coordinates unchanged. -/
theorem get_peril_latlon (r : ELoc) :
    (get_peril r).latitude = r.latitude ∧
    (get_peril r).longitude = r.longitude := ⟨rfl, rfl⟩

/-- The year-built join leaves the coordinates unchanged. -/
theorem ybJoin_latlon (t : List YearBuiltRow) (r : ELoc) (r1 : ELoc)
    (h : r1 ∈ ybJoin t r) : r1.latitude = r.latitude ∧ r1.longitude = r.longitude := by
  by_cases he : (t.filter (fun y => y.yearbuilt == r.yearbuilt)).isEmpty
  · simp [ybJoin, he] at h
    subst h; exact ⟨rfl, rfl⟩
  · simp [ybJoin, he] at h
    obtain ⟨y, _, rfl⟩ := h
    exact ⟨rfl, rfl⟩

/-- The MCM-residential join leaves the coordinates unchanged. -/
theorem mcmResJoin_latlon (t : List MCMResRow) (r : ELoc) (r1 : ELoc)
    (h : r1 ∈ mcmResJoin t r) : r1.latitude = r.latitude ∧ r1.longitude = r.longitude := by
  by_cases he : (t.filter (fun m =>
      some m.building_cat == r.building_cat && some m.yb_cat == r.yb_cat)).isEmpty
  · simp [mcmResJoin, he] at h
    subst h; exact ⟨rfl, rfl⟩
  · simp [mcmResJoin, he] at h
    obtain ⟨m, _, rfl⟩ := h
    exact ⟨rfl, rfl⟩

/-- The full residential classification leaves the coordinates unchanged. -/
theorem get_mcm_code_residential_latlon (tb : StaticTables) (r : ELoc) (r1 : ELoc)
    (h : r1 ∈ get_mcm_code_residential tb r) :
    r1.latitude = r.latitude ∧ r1.longitude = r.longitude := by
  unfold get_mcm_code_residential at h
  obtain ⟨ra, hra, hmem⟩ := List.mem_flatMap.mp h
  obtain ⟨rb, hrb, rfl⟩ := List.mem_map.mp hmem
  obtain ⟨e1, e2⟩ := resOverrides_latlon rb
  obtain ⟨e3, e4⟩ := mcmResJoin_latlon tb.mcm_res (assignBuildingCat ra) rb hrb
  obtain ⟨e5, e6⟩ := assignBuildingCat_latlon ra
  obtain ⟨e7, e8⟩ := ybJoin_latlon tb.yearbuilt r ra hra
  exact ⟨by rw [e1, e3, e5, e7], by rw [e2, e4, e6, e8]⟩

/-- The nonresidential classification leaves the coordinates unchanged. -/
theorem get_mcm_code_non_residential_latlon (tb : StaticTables) (r : ELoc) (r1 : ELoc)
    (h : r1 ∈ get_mcm_code_non_residential tb r) :
    r1.latitude = r.latitude ∧ r1.longitude = r.longitude := by
  unfold get_mcm_code_non_residential at h
  obtain ⟨ra, hra, rfl⟩ := List.mem_map.mp h
  by_cases he : (tb.mcm_nonres.filter (fun m => m.occupancycode == r.occupancycode)).isEmpty
  · simp [he] at hra
    subst hra; exact ⟨rfl, rfl⟩
  · simp [he] at hra
    obtain ⟨m, _, rfl⟩ := hra
    exact ⟨rfl, rfl⟩

/-- The postcode join leaves the coordinates unchanged. -/
theorem pcJoin_latlon (t : List PostcodeRow) (r : ELoc) (r1 : ELoc)
    (h : r1 ∈ pcJoin t r) : r1.latitude = r.latitude ∧ r1.longitude = r.longitude := by
  by_cases he : (t.filter (fun p =>
      p.postalcode == normalizePostcode r.postalcode)).isEmpty
  · simp [pcJoin, he] at h
    subst h; exact ⟨rfl, rfl⟩
  · simp [pcJoin, he] at h
    obtain ⟨p, _, rfl⟩ := h
    exact ⟨rfl, rfl⟩

/-- The geocoder leaves every row's coordinates unchanged: the overwrite
mask conjoins `npBoolIsPyFalse`, which is constantly false. -/
theorem get_latlon_latlon (t : List PostcodeRow) (rows : List ELoc) (r1 : ELoc)
    (h : r1 ∈ get_latlon t rows) :
    ∃ r ∈ rows, r1.latitude = r.latitude ∧ r1.longitude = r.longitude := by
  simp only [get_latlon, npBoolIsPyFalse, Bool.and_false, Bool.false_and,
    if_neg (Bool.false_ne_true)] at h
  obtain ⟨ra, hra, rfl⟩ := List.mem_map.mp h
  obtain ⟨r, hr, hmem⟩ := List.mem_flatMap.mp hra
  obtain ⟨e1, e2⟩ := pcJoin_latlon t r ra hmem
  exact ⟨r, hr, e1, e2⟩

/-- Candidate creation copies the coordinates of the source row. -/
theorem expandKeys_latlon (rows : List ELoc) (k : KRow) (h : k ∈ expandKeys rows) :
    ∃ r ∈ rows, k.latitude = r.latitude ∧ k.longitude = r.longitude := by
  unfold expandKeys at h
  obtain ⟨p, _, hp⟩ := List.mem_flatMap.mp h
  obtain ⟨c, _, hc⟩ := List.mem_flatMap.mp hp
  obtain ⟨r, hr, rfl⟩ := List.mem_map.mp hc
  exact ⟨r, (List.mem_filter.mp hr).1, rfl, rfl⟩

/-- The suppression rules leave the coordinates unchanged. -/
theorem suppressFields_latlon (k : KRow) :
    (suppressFields k).latitude = k.latitude ∧
    (suppressFields k).longitude = k.longitude := by
  constructor <;>
    simp only [suppressFields, apply_ite (fun e : KRow => e.latitude),
      apply_ite (fun e : KRow => e.longitude), ite_self]

/-- The peril-type assignment leaves the coordinates unchanged. -/
theorem setPerilType_latlon (k : KRow) :
    (setPerilType k).latitude = k.latitude ∧
    (setPerilType k).longitude = k.longitude := by
  constructor <;>
    simp only [setPerilType, apply_ite (fun e : KRow => e.latitude),
      apply_ite (fun e : KRow => e.longitude), ite_self]

/-- The mcm/bipoi fill leaves the coordinates unchanged. -/
theorem fillKeys1_latlon (k : KRow) :
    (fillKeys1 k).latitude = k.latitude ∧
    (fillKeys1 k).longitude = k.longitude := ⟨rfl, rfl⟩

/-- The vulnerability join leaves the coordinates unchanged. -/
theorem vulnJoinRow_latlon (vdf : List VulnRow) (k : KRow) (k1 : KRow)
    (h : k1 ∈ vulnJoinRow vdf k) :
    k1.latitude = k.latitude ∧ k1.longitude = k.longitude := by
  by_cases he : (vdf.filter (fun v => vulnMatches v k)).isEmpty
  · simp [vulnJoinRow, he] at h
    subst h; exact ⟨rfl, rfl⟩
  · simp [vulnJoinRow, he] at h
    obtain ⟨v, _, rfl⟩ := h
    exact ⟨rfl, rfl⟩

/-- The grid quantization produces the floor ids of the coordinates. -/
theorem get_latlon_ids_ids (k : KRow) :
    (get_latlon_ids k).lat_id = k.latitude.map (fun x => Rat.floor (qmulZ x 3600)) ∧
    (get_latlon_ids k).lon_id = k.longitude.map (fun x => Rat.floor (qmulZ x 3600)) :=
  ⟨rfl, rfl⟩

/-- The vulnerability fill leaves the ids unchanged. -/
theorem fillVuln_ids (k : KRow) :
    (fillVuln k).lat_id = k.lat_id ∧ (fillVuln k).lon_id = k.lon_id := ⟨rfl, rfl⟩

/-- Every key row produced by the resolution pipeline (before classifying)
has defined lat/lon ids: the normalizer fills missing coordinates with the
default 0, no later stage introduces a missing coordinate — in particular
the geocoder's overwrite mask never fires — and the grid quantization maps
every defined coordinate to a defined id. -/
theorem resolvedKeys_ids_defined (tb : StaticTables) (raws : List RawLoc) (k : KRow)
    (hk : k ∈ resolvedKeys tb raws) : k.lat_id.isSome ∧ k.lon_id.isSome := by
  simp only [resolvedKeys] at hk
  obtain ⟨k1, hk1, rfl⟩ := List.mem_map.mp hk
  obtain ⟨k2, hk2, rfl⟩ := List.mem_map.mp hk1
  obtain ⟨ha, hb⟩ := fillVuln_ids (get_latlon_ids k2)
  obtain ⟨hc, hd⟩ := get_latlon_ids_ids k2
  rw [ha, hb, hc, hd]
  suffices hs : k2.latitude.isSome ∧ k2.longitude.isSome by
    obtain ⟨x, hx⟩ := Option.isSome_iff_exists.mp hs.1
    obtain ⟨y, hy⟩ := Option.isSome_iff_exists.mp hs.2
    rw [hx, hy]
    exact ⟨rfl, rfl⟩
  obtain ⟨k3, hk3, hk2m⟩ := List.mem_flatMap.mp hk2
  obtain ⟨e1, e2⟩ := vulnJoinRow_latlon tb.vulnerability k3 k2 hk2m
  rw [e1, e2]
  obtain ⟨k4, hk4, rfl⟩ := List.mem_map.mp hk3
  obtain ⟨e3, e4⟩ := fillKeys1_latlon k4
  rw [e3, e4]
  obtain ⟨k5, hk5, rfl⟩ := List.mem_map.mp hk4
  obtain ⟨e5, e6⟩ := setPerilType_latlon k5
  rw [e5, e6]
  obtain ⟨k6, hk6, rfl⟩ := List.mem_map.mp hk5
  obtain ⟨e7, e8⟩ := suppressFields_latlon k6
  rw [e7, e8]
  obtain ⟨r1, hr1, e9, e10⟩ := expandKeys_latlon _ k6 hk6
  rw [e9, e10]
  obtain ⟨r2, hr2, rfl⟩ := List.mem_map.mp hr1
  obtain ⟨e11, e12⟩ := get_peril_latlon r2
  rw [e11, e12]
  obtain ⟨r3, hr3, e13, e14⟩ := get_latlon_latlon tb.postcode _ r2 hr2
  rw [e13, e14]
  obtain ⟨r4, hr4, rfl⟩ := List.mem_map.mp hr3
  obtain ⟨e15, e16⟩ := get_bi_poi_latlon r4
  rw [e15, e16]
  obtain ⟨r5, hr5, rfl⟩ := List.mem_map.mp hr4
  obtain ⟨e17, e18⟩ := get_first_floor_height_latlon r5
  rw [e17, e18]
  obtain ⟨r6, hr6, rfl⟩ := List.mem_map.mp hr5
  obtain ⟨e19, e20⟩ := floorsStage_latlon r6
  rw [e19, e20]
  obtain ⟨r7, hr7, rfl⟩ := List.mem_map.mp hr6
  obtain ⟨e21, e22⟩ := get_number_of_storeys_latlon r7
  rw [e21, e22]
  rcases List.mem_append.mp hr7 with hres | hnonres
  · obtain ⟨r8, hr8, hmem⟩ := List.mem_flatMap.mp hres
    obtain ⟨e23, e24⟩ := get_mcm_code_residential_latlon tb r8 r7 hmem
    rw [e23, e24]
    obtain ⟨r9, hr9, rfl⟩ := List.mem_map.mp (List.mem_filter.mp hr8).1
    obtain ⟨r10, _, rfl⟩ := List.mem_map.mp hr9
    obtain ⟨f1, f2⟩ := get_mobile_home_latlon (normalizeLoc r10)
    obtain ⟨f3, f4⟩ := normalizeLoc_latlon r10
    rw [f1, f2, f3, f4]
    exact ⟨rfl, rfl⟩
  · obtain ⟨r8, hr8, hmem⟩ := List.mem_flatMap.mp hnonres
    obtain ⟨e23, e24⟩ := get_mcm_code_non_residential_latlon tb r8 r7 hmem
    rw [e23, e24]
    obtain ⟨r9, hr9, rfl⟩ := List.mem_map.mp (List.mem_filter.mp hr8).1
    obtain ⟨r10, _, rfl⟩ := List.mem_map.mp hr9
    obtain ⟨f1, f2⟩ := get_mobile_home_latlon (normalizeLoc r10)
    obtain ⟨f3, f4⟩ := normalizeLoc_latlon r10
    rw [f1, f2, f3, f4]
    exact ⟨rfl, rfl⟩

/-- `format_keys_row` always emits area_peril_id = -1 and passes the lat/lon
ids through: the source sets the defaults for every row and never writes
`area_peril_id` again. -/
theorem format_keys_row_fields (raster : ℚ → ℚ → Option Int) (k : KRow) :
    (format_keys_row raster k).area_peril_id = -1 ∧
    (format_keys_row raster k).lat_id = k.lat_id ∧
    (format_keys_row raster k).lon_id = k.lon_id := by
  unfold format_keys_row
  repeat' split
  all_goals exact ⟨rfl, rfl, rfl⟩

/-- `format_keys_row` either passes the classifier's status and message
through or demotes a provisional success row to the fail status with the
catchment message. -/
theorem format_keys_row_status (raster : ℚ → ℚ → Option Int) (k : KRow) :
    ((format_keys_row raster k).status = k.status ∧
      (format_keys_row raster k).message = k.message) ∨
    ((format_keys_row raster k).status = some "fail" ∧
      (format_keys_row raster k).message =
        some "could not find catchment for lat/lon") := by
  unfold format_keys_row
  repeat' split
  all_goals first
    | exact Or.inl ⟨rfl, rfl⟩
    | exact Or.inr ⟨rfl, rfl⟩

/-- A row that is not a provisional success keeps the default catchment id
and empty payload: raster sampling runs only for success rows. -/
theorem format_keys_row_defaults (raster : ℚ → ℚ → Option Int) (k : KRow)
    (hk : k.status ≠ some "success") :
    (format_keys_row raster k).catchment_id = -1 ∧
    (format_keys_row raster k).model_data = "" := by
  have hb : ¬(k.status == some "success") = true := by simp [hk]
  unfold format_keys_row
  rw [if_neg hb]
  exact ⟨rfl, rfl⟩

/-- The classifier stage passes the lat/lon ids through. -/
theorem classifyRow_ids (tbl : List AtRiskRow) (k : KRow) :
    (classifyRow tbl k).lat_id = k.lat_id ∧
    (classifyRow tbl k).lon_id = k.lon_id := by
  simp only [classifyRow]
  split <;> exact ⟨rfl, rfl⟩

/-- With defined coordinates, the five-way classifier yields exactly one of
success, notatrisk or fail_v. -/
theorem classifyStatus_total_defined (vid : Int) (ar : Bool) :
    classifyStatus vid true true ar = some ("success", "") ∨
    classifyStatus vid true true ar = some ("notatrisk",
      "area-peril and vulnerability valid, but location not exposed to this peril") ∨
    classifyStatus vid true true ar = some ("fail_v",
      "area-peril valid, vulnerability invalid") := by
  by_cases h : vid = -1 <;> cases ar <;> simp [classifyStatus, h]

/-- A key row with defined ids is classified success, notatrisk or
fail_v. -/
theorem classifyRow_status_defined (tbl : List AtRiskRow) (k : KRow)
    (hla : k.lat_id.isSome) (hlo : k.lon_id.isSome) :
    (classifyRow tbl k).status = some "success" ∨
    (classifyRow tbl k).status = some "notatrisk" ∨
    (classifyRow tbl k).status = some "fail_v" := by
  simp only [classifyRow]
  rw [hla, hlo]
  rcases classifyStatus_total_defined (k.vulnerability_id.getD (-1)) (atRiskMem tbl k)
    with h | h | h <;> rw [h] <;> simp

/-- C9: in every row of the returned keys DataFrame, area_peril_id is -1;
and for every key row whose status at the time of raster sampling is not
success, `format_keys_row` keeps the defaults catchment_id = -1 and
model_data = "" — sampling and payload assembly run only for provisional
success rows, and nothing else writes these columns. -/
theorem c9_output_defaults (raster : ℚ → ℚ → Option Int) (st : LookupState)
    (raws : List RawLoc) (row : ResultKey) (k : KRow)
    (hrow : row ∈ (process_locations raster st raws).1)
    (hk : k.status ≠ some "success") :
    row.area_peril_id = -1 ∧
    (format_keys_row raster k).catchment_id = -1 ∧
    (format_keys_row raster k).model_data = "" := by
  simp only [process_locations] at hrow
  obtain ⟨k2, _, rfl⟩ := List.mem_map.mp hrow
  obtain ⟨hd1, hd2⟩ := format_keys_row_defaults raster k hk
  exact ⟨(format_keys_row_fields raster k2).1, hd1, hd2⟩

/-- C10: for every input batch (missing latitude/longitude values are filled
with the default 0 by the normalizer), every output row carries defined
lat/lon ids — zero-coordinate locations get ids (0, 0) —, no output row has
status fail_ap, and a status of fail can only arise by catchment-sampling
demotion of a provisional success row, never from the classification table
(its message is always the catchment message). -/
theorem c10_defined_ids_statuses (raster : ℚ → ℚ → Option Int) (st : LookupState)
    (raws : List RawLoc) (row : ResultKey)
    (hrow : row ∈ (process_locations raster st raws).1) :
    row.lat_id.isSome ∧ row.lon_id.isSome ∧
    row.status ≠ some "fail_ap" ∧
    (row.status = some "fail" →
      row.message = some "could not find catchment for lat/lon") := by
  simp only [process_locations] at hrow
  set pre := resolvedKeys st.static raws with hpre
  set ar2 := narrowAtRisk st.atRisk (pre.map (fun k => k.lat_id))
    (pre.map (fun k => k.lon_id)) with har2
  obtain ⟨k2, hk2, rfl⟩ := List.mem_map.mp hrow
  obtain ⟨k1, hk1, rfl⟩ := List.mem_map.mp hk2
  rw [hpre] at hk1
  obtain ⟨hla, hlo⟩ := resolvedKeys_ids_defined st.static raws k1 hk1
  obtain ⟨_, hflat, hflon⟩ := format_keys_row_fields raster (classifyRow ar2 k1)
  obtain ⟨hcla, hclo⟩ := classifyRow_ids ar2 k1
  have hst := classifyRow_status_defined ar2 k1 hla hlo
  refine ⟨?_, ?_, ?_, ?_⟩
  · rw [hflat, hcla]; exact hla
  · rw [hflon, hclo]; exact hlo
  · rcases format_keys_row_status raster (classifyRow ar2 k1) with ⟨hs, _⟩ | ⟨hs, _⟩
    · rw [hs]
      rcases hst with h | h | h <;> rw [h] <;> simp
    · rw [hs]; simp
  · intro hfail
    rcases format_keys_row_status raster (classifyRow ar2 k1) with ⟨hs, _⟩ | ⟨_, hm⟩
    · rw [hs] at hfail
      rcases hst with h | h | h <;> rw [h] at hfail <;> simp at hfail
    · exact hm

/-- Witness for C9 at a concrete batch, raster and candidate row. -/
theorem c9_output_defaults_witness :
    wOutRow.area_peril_id = -1 ∧
    (format_keys_row wRaster wKRow).catchment_id = -1 ∧
    (format_keys_row wRaster wKRow).model_data = "" :=
  c9_output_defaults wRaster wState [wRaw] wOutRow wKRow (by decide) (by decide)

/-- Witness for C10 at a concrete batch and output row. -/
theorem c10_defined_ids_statuses_witness :
    wOutRow.lat_id.isSome ∧ wOutRow.lon_id.isSome ∧
    wOutRow.status ≠ some "fail_ap" ∧
    (wOutRow.status = some "fail" →
      wOutRow.message = some "could not find catchment for lat/lon") :=
  c10_defined_ids_statuses wRaster wState [wRaw] wOutRow (by decide)

/-- Witness for C7's amended theorem at the value 100. -/
theorem c7_binning_partition_witness :
    (resBipoiConds.countP (fun c => c 100) = 1 ∧
     nonresBipoiConds.countP (fun c => c 100) = 1 ∧
     (resBipoiBucket 100).isSome ∧ (nonresBipoiBucket 100).isSome) ∧
    (ffhConds.countP (fun c => c 100) = 1 ∧ (ffhBucket 100).isSome) :=
  ⟨(c7_binning_partition 100).1 (by decide), (c7_binning_partition 100).2 (by decide)⟩

/-- C1: the five sequential status writes of `process_locations`
(lines 991-1039) implement exactly the five-way table over (vulnerability
valid, coordinates defined, at_risk): every candidate receives exactly one
of the five statuses (the result is always `some`), with the codes and
messages of the table verbatim.  The source applies the five masks in
overwrite order; this equality shows they are pairwise disjoint and
exhaustive, so the overwrite sequence equals the table. -/
theorem c1_status_five_way (vid : Int) (latDef lonDef atRisk : Bool) :
    classifyStatus vid latDef lonDef atRisk =
      some (if vid = -1 then
              (if latDef && lonDef then
                ("fail_v", "area-peril valid, vulnerability invalid")
               else ("fail", "area-peril and vulnerability invalid"))
            else if latDef && lonDef then
              (if atRisk then ("success", "")
               else ("notatrisk",
                 "area-peril and vulnerability valid, but location not exposed to this peril"))
            else ("fail_ap", "vulnerability valid, area-peril invalid")) := by
  by_cases h : vid = -1 <;> cases latDef <;> cases lonDef <;> cases atRisk <;>
    simp [classifyStatus, h]

/-- C2 (amended): the vulnerability join matches a candidate against a table
row by exact equality of the four join keys (mcm_code, coverage type,
peril_type, user-override id) — a candidate whose `peril_type` is a single
peril id matches only rows whose reformulated `peril_type` is exactly that
id, never a semicolon group merely containing it — and when no row matches
exactly, the emitted `vulnerability_id` is -1 after the fill. -/
theorem c2_vuln_join_exact (vdf : List VulnRow) (k : KRow) (v : VulnRow)
    (hnm : ∀ u ∈ vdf, vulnMatches u k = false) :
    (vulnMatches v k = true ↔
      (some v.mcm_code = k.mcm_code ∧ v.coveragetype_id = k.coveragetype_id ∧
        v.peril_type = k.peril_type ∧
        v.user_vulnerability_id = k.user_vulnerability_id)) ∧
    (vulnJoinRow vdf k).map (fun j => (fillVuln j).vulnerability_id) = [some (-1)] := by
  constructor
  · simp [vulnMatches, and_assoc]
  · have h : vdf.filter (fun u => vulnMatches u k) = [] :=
      List.filter_eq_nil_iff.mpr (fun u hu => by simp [hnm u hu])
    simp [vulnJoinRow, h, fillVuln]

/-- C2 counterexample: a vulnerability row whose raw `peril_type` is the
-9999 sentinel is reformulated to the semicolon group, which contains the
single fluvial peril id of the candidate `c2Key` (all other join keys
agree), yet the join finds no match and yields `vulnerability_id` -1 —
refuting the claim that a single-peril candidate matches a multi-valued
group containing its id. -/
theorem c2_counterexample :
    containsSubstr FLUVIAL_ID (reformulateVulnRow ⟨1, 1, -9999, 0, 42⟩).peril_type = true ∧
    c2Key.peril_type = FLUVIAL_ID ∧ c2Key.mcm_code = some 1 ∧
    c2Key.coveragetype_id = 1 ∧ c2Key.user_vulnerability_id = 0 ∧
    (vulnJoinRow (reformulateVuln [⟨1, 1, -9999, 0, 42⟩]) c2Key).map
      (fun j => (fillVuln j).vulnerability_id) = [some (-1)] := by decide

/-- Witness for C2's amended theorem at a concrete table and candidate. -/
theorem c2_vuln_join_exact_witness :
    (vulnMatches ⟨7, 1, "ORF", 0, 42⟩ wKRow = true ↔
      (some (7 : Int) = wKRow.mcm_code ∧ (1 : Int) = wKRow.coveragetype_id ∧
        "ORF" = wKRow.peril_type ∧ (0 : Int) = wKRow.user_vulnerability_id)) ∧
    (vulnJoinRow [⟨7, 1, "ORF", 0, 42⟩] wKRow).map
      (fun j => (fillVuln j).vulnerability_id) = [some (-1)] :=
  c2_vuln_join_exact [⟨7, 1, "ORF", 0, 42⟩] wKRow ⟨7, 1, "ORF", 0, 42⟩ (by decide)

/-- C3 (evaluation of the code at the failing input): a location with
supplied coordinates exactly (0, 0) whose normalized postal code matches the
centroid table — the merge does find the centroid (`pc_lat`/`pc_lon` are
populated) — still keeps latitude and longitude (0, 0): the substitution
mask is constantly false because of the `is False` identity comparison on a
numpy bool (`npBoolIsPyFalse`). -/
theorem c3_no_substitution :
    (get_latlon c3Tbl [c3Loc]).map
        (fun r => (r.latitude, r.longitude, r.pc_lat, r.pc_lon)) =
      [(some 0, some 0, some (mkRat 103 2), some (mkRat (-1) 8))] := by decide

/-- C4 (evaluation of the code at the failing input): `process_locations`
reassigns `self.at_risk_df` to the batch-narrowed view, so after a call
whose batch lat/lon ids do not cover the grid, the at-risk reference table
held by the lookup object differs from its pre-call state. -/
theorem c4_at_risk_mutated :
    ((process_locations wRaster c4State [wRaw]).2).atRisk ≠ c4State.atRisk := by
  decide

/-- C6: for every candidate with bi coverage, after the suppression rules
and the peril-type assignment, `floorsoccupied` is -9999 and
`numberofstoreys` is 0 regardless of building category, and the
vulnerability-matching `peril_type` is the combined
fluvial;pluvial;coastal group. -/
theorem c6_bi_suppression (k : KRow) (hbi : k.coveragetype_id = COV_BI) :
    (setPerilType (suppressFields k)).floorsoccupied_v = -9999 ∧
    (setPerilType (suppressFields k)).numberofstoreys = 0 ∧
    (setPerilType (suppressFields k)).peril_type =
      FLUVIAL_ID ++ ";" ++ PLUVIAL_ID ++ ";" ++ COASTAL_ID := by
  simp only [suppressFields, setPerilType, hbi]
  norm_num [COV_BI, COV_CONTENTS]
  split_ifs <;> simp_all [allPerilsStr, FLUVIAL_ID, PLUVIAL_ID, COASTAL_ID]

/-- Witness for C6 at a concrete bi-coverage candidate. -/
theorem c6_bi_suppression_witness :
    (setPerilType (suppressFields { wKRow with coveragetype_id := COV_BI })).floorsoccupied_v = -9999 ∧
    (setPerilType (suppressFields { wKRow with coveragetype_id := COV_BI })).numberofstoreys = 0 ∧
    (setPerilType (suppressFields { wKRow with coveragetype_id := COV_BI })).peril_type =
      FLUVIAL_ID ++ ";" ++ PLUVIAL_ID ++ ";" ++ COASTAL_ID :=
  c6_bi_suppression { wKRow with coveragetype_id := COV_BI } rfl

end GlobalFlood
